import Mathlib

/-!
Verification of the SIR epidemic-model engine of this repository.

The engine lives in the notebook functions `SIR` and `SIR_mitigated`:

* an initial-state derivation that scales the observed case counts
  (cumulative confirmed 199258, cumulative recovered-confirmed 81972,
  additional recovered offset 7956) by the reporting fraction
  `confirmed_fraction` to obtain `(S0, I0, R0)`;
* the SIR right-hand side `f(t, u)`, in the mitigated variant multiplied
  by a step factor `q` while `t < Nq`;
* numerical integration over a 400-day horizon (delegated to an external
  adaptive solver in the notebook; modelled here, where a claim needs a
  trajectory, by an explicit fixed-step Euler scheme over the same
  right-hand side).

Real arithmetic is embedded as exact rational arithmetic `ℚ`; the float
division by zero that Python would raise for `confirmed_fraction = 0` is
embedded as `Option.none`.
-/

/-- Right-hand side of the unmitigated SIR system, from `f` inside `SIR`:
`du[0] = -beta*u[1]*u[0]/N`, `du[1] = beta*u[1]*u[0]/N - gamma*u[1]`,
`du[2] = gamma*u[1]`.  The state is `(S, I, R) = (u[0], u[1], u[2])`;
`t` is accepted and ignored, as in the source. -/
def SIR_f (beta gamma N : ℚ) (t : ℚ) (u : ℚ × ℚ × ℚ) : ℚ × ℚ × ℚ :=
  (-beta * u.2.1 * u.1 / N,
   beta * u.2.1 * u.1 / N - gamma * u.2.1,
   gamma * u.2.1)

/-- The mitigation multiplier computed at the top of `f` inside
`SIR_mitigated`: `if t < Nq: qval = q else: qval = 1.`. -/
def qval (q Nq t : ℚ) : ℚ :=
  if t < Nq then q else 1

/-- Right-hand side of the mitigated SIR system, from `f` inside
`SIR_mitigated`: `du[0] = -qval*beta*u[1]*u[0]/N`,
`du[1] = qval*beta*u[1]*u[0]/N - gamma*u[1]`, `du[2] = gamma*u[1]`. -/
def SIR_mitigated_f (beta gamma N q Nq : ℚ) (t : ℚ) (u : ℚ × ℚ × ℚ) : ℚ × ℚ × ℚ :=
  (-qval q Nq t * beta * u.2.1 * u.1 / N,
   qval q Nq t * beta * u.2.1 * u.1 / N - gamma * u.2.1,
   gamma * u.2.1)

/-- Initial-state derivation of `SIR` (its "Initial values" block):
`total_cases = 199258./confirmed_fraction`,
`u0[2] = 81972./confirmed_fraction+7956`, `u0[1] = total_cases-u0[2]`,
`u0[0] = N - u0[1] - u0[2]`.  Returned as `some (u0[0], u0[1], u0[2])`;
`none` models the `ZeroDivisionError` Python raises when
`confirmed_fraction = 0`. -/
def SIR_u0 (confirmed_fraction N : ℚ) : Option (ℚ × ℚ × ℚ) :=
  if confirmed_fraction = 0 then none
  else
    let total_cases := 199258 / confirmed_fraction
    let u2 := 81972 / confirmed_fraction + 7956
    let u1 := total_cases - u2
    some (N - u1 - u2, u1, u2)

/-- Initial-state derivation of `SIR_mitigated`; its "Initial values" block
is textually identical to the one in `SIR`. -/
def SIR_mitigated_u0 (confirmed_fraction N : ℚ) : Option (ℚ × ℚ × ℚ) :=
  if confirmed_fraction = 0 then none
  else
    let total_cases := 199258 / confirmed_fraction
    let u2 := 81972 / confirmed_fraction + 7956
    let u1 := total_cases - u2
    some (N - u1 - u2, u1, u2)

/-- The derivation of `SIR_u0` with the three observed-case constants
(199258, 81972, 7956) abstracted as parameters; this is the
`deriveInitialState(observedCounts, confirmedFraction, population)`
interface of the spec. -/
def deriveInitialState (cumulativeConfirmed cumulativeRecoveredConfirmed
    additionalRecoveredOffset confirmed_fraction N : ℚ) : Option (ℚ × ℚ × ℚ) :=
  if confirmed_fraction = 0 then none
  else
    let total_cases := cumulativeConfirmed / confirmed_fraction
    let u2 := cumulativeRecoveredConfirmed / confirmed_fraction + additionalRecoveredOffset
    let u1 := total_cases - u2
    some (N - u1 - u2, u1, u2)

/-- Sum of the three compartments of a state vector. -/
def sum3 (u : ℚ × ℚ × ℚ) : ℚ :=
  u.1 + u.2.1 + u.2.2

/-- Modelled from the spec: one step of an explicit fixed-step solver for
the ODE right-hand side `f` (the notebook delegates integration to an
external adaptive solver, `solve_ivp`, which is not part of this
repository; the spec leaves the solver as caller-supplied
configuration).  Explicit Euler update `u + h * f t u`, componentwise. -/
def eulerStep (f : ℚ → ℚ × ℚ × ℚ → ℚ × ℚ × ℚ) (h t : ℚ) (u : ℚ × ℚ × ℚ) : ℚ × ℚ × ℚ :=
  (u.1 + h * (f t u).1, u.2.1 + h * (f t u).2.1, u.2.2 + h * (f t u).2.2)

/-- Modelled from the spec: the trajectory of the fixed-step solver,
`n` steps of size `h` from `u0`, sampling the right-hand side at
`t = n * h`. -/
def eulerTraj (f : ℚ → ℚ × ℚ × ℚ → ℚ × ℚ × ℚ) (h : ℚ) (u0 : ℚ × ℚ × ℚ) : ℕ → ℚ × ℚ × ℚ
  | 0 => u0
  | n + 1 => eulerStep f h ((n : ℚ) * h) (eulerTraj f h u0 n)

/-- Modelled from the spec: one day (`h = 1`) of the explicit fixed-step
solver over the mitigated right-hand side, in exact integer arithmetic.
The rates are integer fractions `beta = bn / bd`, `gamma = gn / gd`,
`q = qn / qd`, and each compartment increment is the floor of the exact
rational increment of the code's right-hand side
(theorem `istep_floor_of_rhs`); with `qn = qd = 1` the step integrates
the unmitigated system (theorem `istep_unmitigated`). -/
def istep (bn bd gn gd qn qd N : ℤ) (Nq t : ℕ) (u : ℤ × ℤ × ℤ) : ℤ × ℤ × ℤ :=
  let qn' : ℤ := if t < Nq then qn else 1
  let qd' : ℤ := if t < Nq then qd else 1
  (u.1 + (-(qn' * bn * u.2.1 * u.1)) / (qd' * bd * N),
   u.2.1 + (qn' * bn * u.2.1 * u.1 * gd - gn * u.2.1 * (qd' * bd * N)) / (qd' * bd * N * gd),
   u.2.2 + (gn * u.2.1) / gd)

/-- The integer trajectory: `n` daily steps of `istep` from `u0`. -/
def itraj (bn bd gn gd qn qd N : ℤ) (Nq : ℕ) (u0 : ℤ × ℤ × ℤ) : ℕ → ℤ × ℤ × ℤ
  | 0 => u0
  | n + 1 => istep bn bd gn gd qn qd N Nq n (itraj bn bd gn gd qn qd N Nq u0 n)

/-- Scan state: current day, current state vector, and the running
`(peak infected value, day of the peak)` pair. -/
abbrev ScanState := ℕ × (ℤ × ℤ × ℤ) × (ℤ × ℕ)

/-- One day of the peak-tracking scan: advance the state by `istep` and
update the running peak, keeping the earliest day on ties. -/
def scanStep (bn bd gn gd qn qd N : ℤ) (Nq : ℕ) (s : ScanState) : ScanState :=
  let u' := istep bn bd gn gd qn qd N Nq s.1 s.2.1
  (s.1 + 1, u', if s.2.2.1 < u'.2.1 then (u'.2.1, s.1 + 1) else s.2.2)

/-- `k` days of the peak-tracking scan. -/
def scan (bn bd gn gd qn qd N : ℤ) (Nq : ℕ) : ℕ → ScanState → ScanState
  | 0, s => s
  | k + 1, s => scanStep bn bd gn gd qn qd N Nq (scan bn bd gn gd qn qd N Nq k s)

/-- The peak-tracking scan from day 0: `horizon` daily steps starting at
`(day 0, u0, (u0.I, day 0))`; cf. `scan_spec`. -/
def runScan (bn bd gn gd qn qd N : ℤ) (Nq horizon : ℕ) (u0 : ℤ × ℤ × ℤ) : ScanState :=
  scan bn bd gn gd qn qd N Nq horizon (0, u0, (u0.2.1, 0))

/-- Peak infected value recorded by a scan. -/
def peakI (s : ScanState) : ℤ :=
  s.2.2.1

/-- Day at which the recorded peak is (first) attained. -/
def peakDay (s : ScanState) : ℕ :=
  s.2.2.2

/-- The reference integer initial state: componentwise floor of the state
the code derives at the defaults (`confirmed_fraction = 0.15`,
`N = 7.77e9`); see `u0int_floor_of_derived`. -/
def u0int : ℤ × ℤ × ℤ :=
  (7768671613, 773950, 554436)

/-- Claim C1: for every `confirmedFraction` in `(0,1]`, population `N > 0`
and observed counts, the initial-state derivation returns exactly
`R0 = cumulativeRecoveredConfirmed / confirmedFraction + additionalRecoveredOffset`,
`I0 = cumulativeConfirmed / confirmedFraction - R0` and `S0 = N - I0 - R0`,
and the same derivation is used identically by both the unmitigated and
the mitigated entry points. -/
theorem deriveInitialState_formula (cc crc aro cf N : ℚ)
    (h1 : 0 < cf) (h2 : cf ≤ 1) (hN : 0 < N) :
    deriveInitialState cc crc aro cf N =
      some (N - (cc / cf - (crc / cf + aro)) - (crc / cf + aro),
            cc / cf - (crc / cf + aro),
            crc / cf + aro) ∧
    SIR_u0 cf N = deriveInitialState 199258 81972 7956 cf N ∧
    SIR_mitigated_u0 cf N = SIR_u0 cf N := by
  have hne : cf ≠ 0 := ne_of_gt h1
  unfold deriveInitialState SIR_u0 SIR_mitigated_u0
  simp [hne]

/-- Witness for C1 at `cc = 199258`, `crc = 81972`, `aro = 7956`,
`cf = 1`, `N = 1`. -/
theorem deriveInitialState_formula_witness :
    (0 : ℚ) < 1 ∧ (1 : ℚ) ≤ 1 ∧
    (deriveInitialState 199258 81972 7956 1 1 =
      some (1 - (199258 / 1 - (81972 / 1 + 7956)) - (81972 / 1 + 7956),
            199258 / 1 - (81972 / 1 + 7956),
            81972 / 1 + 7956) ∧
     SIR_u0 1 1 = deriveInitialState 199258 81972 7956 1 1 ∧
     SIR_mitigated_u0 1 1 = SIR_u0 1 1) :=
  ⟨one_pos, le_refl 1,
    deriveInitialState_formula 199258 81972 7956 1 1 one_pos (le_refl 1) one_pos⟩

/-- Claim C2, counterexample: at `confirmed_fraction = -3/20 < 0` the
derivation does not fail at all — it returns a state, and one whose `I0`
is negative, instead of rejecting the input. -/
theorem deriver_accepts_invalid_input :
    SIR_u0 (-(3 / 20)) 7770000000 =
      some (23313985160 / 3, -2369588 / 3, -538524) ∧
    (-2369588 / 3 : ℚ) < 0 := by
  constructor
  · unfold SIR_u0
    norm_num
  · norm_num

/-- Claim C2, amended: the derivation performs no validation.  Its only
failure is the division by zero at `confirmed_fraction = 0`; for every
nonzero `confirmed_fraction` — including negative ones and ones for which
the derived `I0` or `S0` is negative — it returns the state computed by
the formulas unchanged, with no clamping and no `InvalidParameter`
error. -/
theorem deriver_no_validation (cf N : ℚ) (h : cf ≠ 0) :
    SIR_u0 0 N = none ∧
    SIR_u0 cf N =
      some (N - (199258 / cf - (81972 / cf + 7956)) - (81972 / cf + 7956),
            199258 / cf - (81972 / cf + 7956),
            81972 / cf + 7956) := by
  constructor
  · unfold SIR_u0
    simp
  · unfold SIR_u0
    simp [h]

/-- Witness for the amended C2 at `cf = 1`, `N = 1`. -/
theorem deriver_no_validation_witness :
    (1 : ℚ) ≠ 0 ∧
    (SIR_u0 0 1 = none ∧
     SIR_u0 1 1 =
       some (1 - (199258 / 1 - (81972 / 1 + 7956)) - (81972 / 1 + 7956),
             199258 / 1 - (81972 / 1 + 7956),
             81972 / 1 + 7956)) :=
  ⟨one_ne_zero, deriver_no_validation 1 1 one_ne_zero⟩

/-- If the components of the right-hand side sum to zero at every state,
the fixed-step trajectory conserves the compartment sum exactly. -/
theorem eulerTraj_sum3 (f : ℚ → ℚ × ℚ × ℚ → ℚ × ℚ × ℚ)
    (hf : ∀ t u, sum3 (f t u) = 0) (h : ℚ) (u0 : ℚ × ℚ × ℚ) (n : ℕ) :
    sum3 (eulerTraj f h u0 n) = sum3 u0 := by
  induction n with
  | zero => rfl
  | succ n ih =>
    have hstep := hf ((n : ℚ) * h) (eulerTraj f h u0 n)
    simp only [eulerTraj, eulerStep, sum3] at ih hstep ⊢
    linear_combination ih + h * hstep

/-- Claim C3: for every time `t`, mitigation factor `q ∈ [0,1]` and
duration `Nq`, the effective mitigation multiplier equals `q` when
`t < Nq` and `1` otherwise — in particular exactly `1` at `t = Nq` — and
it is exactly the factor by which the mitigated right-hand side rescales
`beta` (the unmitigated `SIR_f` carries no multiplier at all, i.e. runs
with multiplier `1`). -/
theorem mitigation_multiplier_step (t q Nq : ℚ) (h0 : 0 ≤ q) (h1 : q ≤ 1) :
    (t < Nq → qval q Nq t = q) ∧
    (Nq ≤ t → qval q Nq t = 1) ∧
    qval q Nq Nq = 1 ∧
    (∀ beta gamma N : ℚ, ∀ u : ℚ × ℚ × ℚ,
      SIR_mitigated_f beta gamma N q Nq t u = SIR_f (qval q Nq t * beta) gamma N t u) := by
  refine ⟨fun ht => if_pos ht, fun ht => if_neg (not_lt.mpr ht), if_neg (lt_irrefl Nq), ?_⟩
  intro beta gamma N u
  unfold SIR_mitigated_f SIR_f
  rw [Prod.ext_iff, Prod.ext_iff]
  exact ⟨by ring, by ring, by ring⟩

/-- Witness for C3 at `t = 0`, `q = 0`, `Nq = 1`. -/
theorem mitigation_multiplier_step_witness :
    (0 : ℚ) ≤ 0 ∧ (0 : ℚ) ≤ 1 ∧ qval 0 1 0 = 0 ∧ qval 0 1 1 = 1 :=
  ⟨le_refl 0, zero_le_one,
    (mitigation_multiplier_step 0 0 1 (le_refl 0) zero_le_one).1 zero_lt_one,
    (mitigation_multiplier_step 0 0 1 (le_refl 0) zero_le_one).2.2.1⟩

/-- Claim C4: the derived initial state sums exactly to `N`, the three
components of both right-hand sides sum to zero at every state, and hence
the compartment sum of a trajectory of the (modelled) fixed-step solver
started from the derived state stays within solver tolerance times `N`
of `N` at every sample — here it is conserved exactly, so the deviation
is `0 ≤ tol * N`. -/
theorem conservation_S_I_R (cf N beta gamma q Nq tol : ℚ)
    (hcf : cf ≠ 0) (htol : 0 ≤ tol) (hN : 0 ≤ N) :
    (SIR_u0 cf N =
       some (N - (199258 / cf - (81972 / cf + 7956)) - (81972 / cf + 7956),
             199258 / cf - (81972 / cf + 7956),
             81972 / cf + 7956) ∧
     sum3 (N - (199258 / cf - (81972 / cf + 7956)) - (81972 / cf + 7956),
           199258 / cf - (81972 / cf + 7956),
           81972 / cf + 7956) = N) ∧
    (∀ t : ℚ, ∀ u : ℚ × ℚ × ℚ, sum3 (SIR_f beta gamma N t u) = 0) ∧
    (∀ t : ℚ, ∀ u : ℚ × ℚ × ℚ, sum3 (SIR_mitigated_f beta gamma N q Nq t u) = 0) ∧
    (∀ h : ℚ, ∀ n : ℕ,
      |sum3 (eulerTraj (SIR_mitigated_f beta gamma N q Nq) h
          (N - (199258 / cf - (81972 / cf + 7956)) - (81972 / cf + 7956),
           199258 / cf - (81972 / cf + 7956),
           81972 / cf + 7956) n) - N| ≤ tol * N) := by
  have hsum0 :
      sum3 (N - (199258 / cf - (81972 / cf + 7956)) - (81972 / cf + 7956),
            199258 / cf - (81972 / cf + 7956),
            81972 / cf + 7956) = N := by
    simp only [sum3]
    ring
  have hrhs : ∀ t : ℚ, ∀ u : ℚ × ℚ × ℚ,
      sum3 (SIR_mitigated_f beta gamma N q Nq t u) = 0 := by
    intro t u
    simp only [sum3, SIR_mitigated_f]
    ring
  refine ⟨⟨?_, hsum0⟩, ?_, hrhs, ?_⟩
  · unfold SIR_u0
    simp [hcf]
  · intro t u
    simp only [sum3, SIR_f]
    ring
  · intro h n
    rw [eulerTraj_sum3 _ hrhs, hsum0]
    simpa using mul_nonneg htol hN

/-- Witness for C4 at `cf = 1`, `N = 1`, `beta = gamma = q = Nq = 0`,
`tol = 0`. -/
theorem conservation_S_I_R_witness :
    (1 : ℚ) ≠ 0 ∧ (0 : ℚ) ≤ 0 ∧ (0 : ℚ) ≤ 1 ∧
    ((SIR_u0 1 1 =
        some (1 - (199258 / 1 - (81972 / 1 + 7956)) - (81972 / 1 + 7956),
              199258 / 1 - (81972 / 1 + 7956),
              81972 / 1 + 7956) ∧
      sum3 (1 - (199258 / 1 - (81972 / 1 + 7956)) - (81972 / 1 + 7956),
            199258 / 1 - (81972 / 1 + 7956),
            81972 / 1 + 7956) = 1) ∧
     (∀ t : ℚ, ∀ u : ℚ × ℚ × ℚ, sum3 (SIR_f 0 0 1 t u) = 0) ∧
     (∀ t : ℚ, ∀ u : ℚ × ℚ × ℚ, sum3 (SIR_mitigated_f 0 0 1 0 0 t u) = 0) ∧
     (∀ h : ℚ, ∀ n : ℕ,
       |sum3 (eulerTraj (SIR_mitigated_f 0 0 1 0 0) h
           (1 - (199258 / 1 - (81972 / 1 + 7956)) - (81972 / 1 + 7956),
            199258 / 1 - (81972 / 1 + 7956),
            81972 / 1 + 7956) n) - 1| ≤ 0 * 1)) :=
  ⟨one_ne_zero, le_refl 0, zero_le_one,
    conservation_S_I_R 1 1 0 0 0 0 0 one_ne_zero (le_refl 0) zero_le_one⟩

/-- Claim C5: the mitigated right-hand side with factor `1` is pointwise
equal to the unmitigated right-hand side, for any duration; consequently
the (modelled) fixed-step solver produces the identical trajectory. -/
theorem degenerate_mitigation (beta gamma N Nq : ℚ) :
    (∀ t : ℚ, ∀ u : ℚ × ℚ × ℚ,
      SIR_mitigated_f beta gamma N 1 Nq t u = SIR_f beta gamma N t u) ∧
    (∀ h : ℚ, ∀ u0 : ℚ × ℚ × ℚ, ∀ n : ℕ,
      eulerTraj (SIR_mitigated_f beta gamma N 1 Nq) h u0 n =
        eulerTraj (SIR_f beta gamma N) h u0 n) := by
  have hpt : ∀ t : ℚ, ∀ u : ℚ × ℚ × ℚ,
      SIR_mitigated_f beta gamma N 1 Nq t u = SIR_f beta gamma N t u := by
    intro t u
    unfold SIR_mitigated_f SIR_f qval
    rw [Prod.ext_iff, Prod.ext_iff]
    refine ⟨?_, ?_, by ring⟩ <;>
      rcases lt_or_le t Nq with ht | ht <;> simp [ht]
  have hfun : SIR_mitigated_f beta gamma N 1 Nq = SIR_f beta gamma N :=
    funext fun t => funext fun u => hpt t u
  exact ⟨hpt, by rw [hfun]; exact fun h u0 n => rfl⟩

/-- Claim C6: the recovery component of the right-hand side is
`gamma * I`, hence non-negative whenever `I ≥ 0` and `gamma > 0`, in both
systems, and the mitigation multiplier never touches it (the mitigated
and unmitigated recovery components coincide); so `R` is non-decreasing
along any valid trajectory. -/
theorem recovery_component_nonneg (beta gamma N q Nq t S I R : ℚ)
    (hI : 0 ≤ I) (hg : 0 < gamma) :
    (SIR_f beta gamma N t (S, I, R)).2.2 = gamma * I ∧
    (SIR_mitigated_f beta gamma N q Nq t (S, I, R)).2.2 =
      (SIR_f beta gamma N t (S, I, R)).2.2 ∧
    0 ≤ (SIR_f beta gamma N t (S, I, R)).2.2 ∧
    0 ≤ (SIR_mitigated_f beta gamma N q Nq t (S, I, R)).2.2 := by
  refine ⟨rfl, rfl, ?_, ?_⟩ <;>
    exact mul_nonneg (le_of_lt hg) hI

/-- Witness for C6 at `beta = N = q = Nq = t = S = R = 0`, `I = 0`,
`gamma = 1`. -/
theorem recovery_component_nonneg_witness :
    (0 : ℚ) ≤ 0 ∧ (0 : ℚ) < 1 ∧
    ((SIR_f 0 1 0 0 (0, 0, 0)).2.2 = 1 * 0 ∧
     (SIR_mitigated_f 0 1 0 0 0 0 (0, 0, 0)).2.2 = (SIR_f 0 1 0 0 (0, 0, 0)).2.2 ∧
     0 ≤ (SIR_f 0 1 0 0 (0, 0, 0)).2.2 ∧
     0 ≤ (SIR_mitigated_f 0 1 0 0 0 0 (0, 0, 0)).2.2) :=
  ⟨le_refl 0, one_pos,
    recovery_component_nonneg 0 1 0 0 0 0 0 0 0 (le_refl 0) one_pos⟩

/-- Claim C7: for the unmitigated system with `beta = 1/4` (0.25) and
`gamma = 1/20` (0.05), at every state with `I > 0` (and `N > 0`) the
infected component of the right-hand side is zero exactly when
`S / N = gamma / beta = 1/5`, positive when `S / N > 1/5` and negative
when `S / N < 1/5` — so the infection peak sits at susceptible fraction
`0.2`. -/
theorem infection_peak_at_gamma_over_beta (N t S I R : ℚ)
    (hI : 0 < I) (hN : 0 < N) :
    ((SIR_f (1 / 4) (1 / 20) N t (S, I, R)).2.1 = 0 ↔ S / N = 1 / 5) ∧
    (0 < (SIR_f (1 / 4) (1 / 20) N t (S, I, R)).2.1 ↔ 1 / 5 < S / N) ∧
    ((SIR_f (1 / 4) (1 / 20) N t (S, I, R)).2.1 < 0 ↔ S / N < 1 / 5) := by
  have hkey : (SIR_f (1 / 4) (1 / 20) N t (S, I, R)).2.1 = I / 4 * (S / N - 1 / 5) := by
    unfold SIR_f
    field_simp
    ring
  have hc : (0 : ℚ) < I / 4 := by linarith
  rw [hkey]
  refine ⟨?_, ?_, ?_⟩
  · constructor
    · intro h0
      have := (mul_eq_zero.mp h0).resolve_left (ne_of_gt hc)
      linarith [sub_eq_zero.mp this]
    · intro h0
      rw [h0]
      ring
  · constructor
    · intro h0
      nlinarith
    · intro h0
      have : (0 : ℚ) < S / N - 1 / 5 := by linarith
      exact mul_pos hc this
  · constructor
    · intro h0
      nlinarith
    · intro h0
      have : S / N - 1 / 5 < 0 := by linarith
      exact mul_neg_of_pos_of_neg hc this

/-- Witness for C7 at `N = 1`, `t = 0`, `(S, I, R) = (0, 1, 0)`. -/
theorem infection_peak_at_gamma_over_beta_witness :
    (0 : ℚ) < 1 ∧
    (((SIR_f (1 / 4) (1 / 20) 1 0 (0, 1, 0)).2.1 = 0 ↔ (0 : ℚ) / 1 = 1 / 5) ∧
     (0 < (SIR_f (1 / 4) (1 / 20) 1 0 (0, 1, 0)).2.1 ↔ (1 : ℚ) / 5 < 0 / 1) ∧
     ((SIR_f (1 / 4) (1 / 20) 1 0 (0, 1, 0)).2.1 < 0 ↔ (0 : ℚ) / 1 < 1 / 5)) :=
  ⟨one_pos, infection_peak_at_gamma_over_beta 1 0 0 1 0 one_pos one_pos⟩

/-- Claim C8, counterexample: with `confirmed_fraction = 3/20` (0.15) and
`N = 7.77e9` the code derives `I0 = 2321852/3 ≈ 773950.67`, which is more
than 400000 below the claimed `I0 ≈ 1241913` (and `R0` is exactly
`554436`, not `≈ 554613`). -/
theorem reference_I0_differs_from_claim :
    SIR_u0 (3 / 20) 7770000000 =
      some (23306014840 / 3, 2321852 / 3, 554436) ∧
    (2321852 / 3 : ℚ) < 1241913 - 400000 := by
  constructor
  · unfold SIR_u0
    norm_num
  · norm_num

/-- Claim C8, amended: with `confirmedFraction = 0.15`,
`cumulativeConfirmed = 199258`, `cumulativeRecoveredConfirmed = 81972`
and `additionalRecoveredOffset = 7956`, the derived initial state is
exactly `R0 = 554436`, `I0 = 2321852/3 ≈ 773950.67` and
`S0 = population - I0 - R0` (`= 23306014840/3` for `N = 7.77e9`), the
same in both entry points. -/
theorem reference_initial_state :
    SIR_u0 (3 / 20) 7770000000 =
      some (23306014840 / 3, 2321852 / 3, 554436) ∧
    SIR_mitigated_u0 (3 / 20) 7770000000 = SIR_u0 (3 / 20) 7770000000 ∧
    (23306014840 / 3 : ℚ) = 7770000000 - 2321852 / 3 - 554436 := by
  refine ⟨?_, rfl, by norm_num⟩
  unfold SIR_u0
  norm_num

/-- Claim C10: with the reference observed-case constants, the derived
`I0 = 117286 / cf - 7956` is at least `117286 - 7956 = 109330 > 0` for
every `confirmed_fraction` in `(0, 1]` and every population, in both
entry points — the `I0 < 0` failure condition is unreachable there. -/
theorem reference_I0_always_positive (cf N : ℚ) (h1 : 0 < cf) (h2 : cf ≤ 1) :
    SIR_u0 cf N =
      some (N - (199258 / cf - (81972 / cf + 7956)) - (81972 / cf + 7956),
            199258 / cf - (81972 / cf + 7956),
            81972 / cf + 7956) ∧
    SIR_mitigated_u0 cf N = SIR_u0 cf N ∧
    109330 ≤ 199258 / cf - (81972 / cf + 7956) ∧
    0 < 199258 / cf - (81972 / cf + 7956) := by
  have hne : cf ≠ 0 := ne_of_gt h1
  have hdiv : (117286 : ℚ) / 1 ≤ 117286 / cf :=
    div_le_div_of_nonneg_left (by norm_num) h1 h2
  have hsplit : 199258 / cf - (81972 / cf + 7956) = 117286 / cf - 7956 := by
    field_simp
    ring
  refine ⟨?_, rfl, ?_, ?_⟩
  · unfold SIR_u0
    simp [hne]
  · rw [hsplit]
    rw [div_one] at hdiv
    linarith
  · rw [hsplit]
    rw [div_one] at hdiv
    linarith

/-- Witness for C10 at `cf = 1`, `N = 1`. -/
theorem reference_I0_always_positive_witness :
    (0 : ℚ) < 1 ∧ (1 : ℚ) ≤ 1 ∧
    (SIR_u0 1 1 =
       some (1 - (199258 / 1 - (81972 / 1 + 7956)) - (81972 / 1 + 7956),
             199258 / 1 - (81972 / 1 + 7956),
             81972 / 1 + 7956) ∧
     SIR_mitigated_u0 1 1 = SIR_u0 1 1 ∧
     (109330 : ℚ) ≤ 199258 / 1 - (81972 / 1 + 7956) ∧
     (0 : ℚ) < 199258 / 1 - (81972 / 1 + 7956)) :=
  ⟨one_pos, le_refl 1, reference_I0_always_positive 1 1 one_pos (le_refl 1)⟩

/-- The mitigated right-hand side with factor `1` coincides pointwise
with the unmitigated one. -/
theorem SIR_mitigated_f_factor_one (beta gamma N Nq t : ℚ) (u : ℚ × ℚ × ℚ) :
    SIR_mitigated_f beta gamma N 1 Nq t u = SIR_f beta gamma N t u := by
  unfold SIR_mitigated_f SIR_f qval
  rw [Prod.ext_iff, Prod.ext_iff]
  refine ⟨?_, ?_, by ring⟩ <;>
    rcases lt_or_le t Nq with ht | ht <;> simp [ht]

/-- Floor of a quotient of integers cast to `ℚ` is integer (floor)
division, for a positive denominator. -/
theorem floor_cast_div_eq_int_div (a b : ℤ) (hb : 0 < b) :
    ⌊((a : ℚ) / (b : ℚ))⌋ = a / b := by
  obtain ⟨m, rfl⟩ := Int.eq_ofNat_of_zero_le hb.le
  exact_mod_cast Rat.floor_intCast_div_natCast a m

/-- The integer step is exactly the floor-rounded Euler step of the
code's mitigated right-hand side `SIR_mitigated_f`. -/
theorem istep_floor_of_rhs (bn bd gn gd qn qd N : ℤ) (Nq t : ℕ) (u : ℤ × ℤ × ℤ)
    (hbd : 0 < bd) (hgd : 0 < gd) (hqd : 0 < qd) (hN : 0 < N) :
    istep bn bd gn gd qn qd N Nq t u =
      (u.1 + ⌊(SIR_mitigated_f ((bn : ℚ) / (bd : ℚ)) ((gn : ℚ) / (gd : ℚ)) (N : ℚ)
          ((qn : ℚ) / (qd : ℚ)) (Nq : ℚ) (t : ℚ) ((u.1 : ℚ), (u.2.1 : ℚ), (u.2.2 : ℚ))).1⌋,
       u.2.1 + ⌊(SIR_mitigated_f ((bn : ℚ) / (bd : ℚ)) ((gn : ℚ) / (gd : ℚ)) (N : ℚ)
          ((qn : ℚ) / (qd : ℚ)) (Nq : ℚ) (t : ℚ) ((u.1 : ℚ), (u.2.1 : ℚ), (u.2.2 : ℚ))).2.1⌋,
       u.2.2 + ⌊(SIR_mitigated_f ((bn : ℚ) / (bd : ℚ)) ((gn : ℚ) / (gd : ℚ)) (N : ℚ)
          ((qn : ℚ) / (qd : ℚ)) (Nq : ℚ) (t : ℚ) ((u.1 : ℚ), (u.2.1 : ℚ), (u.2.2 : ℚ))).2.2⌋) := by
  have hbd' : (bd : ℚ) ≠ 0 := Int.cast_ne_zero.mpr (ne_of_gt hbd)
  have hgd' : (gd : ℚ) ≠ 0 := Int.cast_ne_zero.mpr (ne_of_gt hgd)
  have hqd' : (qd : ℚ) ≠ 0 := Int.cast_ne_zero.mpr (ne_of_gt hqd)
  have hN' : (N : ℚ) ≠ 0 := Int.cast_ne_zero.mpr (ne_of_gt hN)
  rcases Nat.lt_or_ge t Nq with ht | ht
  · have htQ : (t : ℚ) < (Nq : ℚ) := by exact_mod_cast ht
    have e1 : (SIR_mitigated_f ((bn : ℚ) / (bd : ℚ)) ((gn : ℚ) / (gd : ℚ)) (N : ℚ)
        ((qn : ℚ) / (qd : ℚ)) (Nq : ℚ) (t : ℚ) ((u.1 : ℚ), (u.2.1 : ℚ), (u.2.2 : ℚ))).1 =
        ((-(qn * bn * u.2.1 * u.1) : ℤ) : ℚ) / ((qd * bd * N : ℤ) : ℚ) := by
      unfold SIR_mitigated_f qval
      rw [if_pos htQ]
      push_cast
      field_simp
    have e2 : (SIR_mitigated_f ((bn : ℚ) / (bd : ℚ)) ((gn : ℚ) / (gd : ℚ)) (N : ℚ)
        ((qn : ℚ) / (qd : ℚ)) (Nq : ℚ) (t : ℚ) ((u.1 : ℚ), (u.2.1 : ℚ), (u.2.2 : ℚ))).2.1 =
        ((qn * bn * u.2.1 * u.1 * gd - gn * u.2.1 * (qd * bd * N) : ℤ) : ℚ) /
          ((qd * bd * N * gd : ℤ) : ℚ) := by
      unfold SIR_mitigated_f qval
      rw [if_pos htQ]
      push_cast
      field_simp
      ring
    have e3 : (SIR_mitigated_f ((bn : ℚ) / (bd : ℚ)) ((gn : ℚ) / (gd : ℚ)) (N : ℚ)
        ((qn : ℚ) / (qd : ℚ)) (Nq : ℚ) (t : ℚ) ((u.1 : ℚ), (u.2.1 : ℚ), (u.2.2 : ℚ))).2.2 =
        ((gn * u.2.1 : ℤ) : ℚ) / ((gd : ℤ) : ℚ) := by
      unfold SIR_mitigated_f
      push_cast
      ring
    rw [e1, e2, e3,
      floor_cast_div_eq_int_div _ _ (mul_pos (mul_pos hqd hbd) hN),
      floor_cast_div_eq_int_div _ _ (mul_pos (mul_pos (mul_pos hqd hbd) hN) hgd),
      floor_cast_div_eq_int_div _ _ hgd]
    unfold istep
    simp only [if_pos ht]
  · have htQ : ¬ (t : ℚ) < (Nq : ℚ) := by
      push_neg
      exact_mod_cast ht
    have e1 : (SIR_mitigated_f ((bn : ℚ) / (bd : ℚ)) ((gn : ℚ) / (gd : ℚ)) (N : ℚ)
        ((qn : ℚ) / (qd : ℚ)) (Nq : ℚ) (t : ℚ) ((u.1 : ℚ), (u.2.1 : ℚ), (u.2.2 : ℚ))).1 =
        ((-(1 * bn * u.2.1 * u.1) : ℤ) : ℚ) / ((1 * bd * N : ℤ) : ℚ) := by
      unfold SIR_mitigated_f qval
      rw [if_neg htQ]
      push_cast
      field_simp
    have e2 : (SIR_mitigated_f ((bn : ℚ) / (bd : ℚ)) ((gn : ℚ) / (gd : ℚ)) (N : ℚ)
        ((qn : ℚ) / (qd : ℚ)) (Nq : ℚ) (t : ℚ) ((u.1 : ℚ), (u.2.1 : ℚ), (u.2.2 : ℚ))).2.1 =
        ((1 * bn * u.2.1 * u.1 * gd - gn * u.2.1 * (1 * bd * N) : ℤ) : ℚ) /
          ((1 * bd * N * gd : ℤ) : ℚ) := by
      unfold SIR_mitigated_f qval
      rw [if_neg htQ]
      push_cast
      field_simp
      ring
    have e3 : (SIR_mitigated_f ((bn : ℚ) / (bd : ℚ)) ((gn : ℚ) / (gd : ℚ)) (N : ℚ)
        ((qn : ℚ) / (qd : ℚ)) (Nq : ℚ) (t : ℚ) ((u.1 : ℚ), (u.2.1 : ℚ), (u.2.2 : ℚ))).2.2 =
        ((gn * u.2.1 : ℤ) : ℚ) / ((gd : ℤ) : ℚ) := by
      unfold SIR_mitigated_f
      push_cast
      ring
    rw [e1, e2, e3,
      floor_cast_div_eq_int_div _ _ (mul_pos (mul_pos one_pos hbd) hN),
      floor_cast_div_eq_int_div _ _ (mul_pos (mul_pos (mul_pos one_pos hbd) hN) hgd),
      floor_cast_div_eq_int_div _ _ hgd]
    unfold istep
    simp only [if_neg (Nat.not_lt.mpr ht)]

/-- With `qn = qd = 1` (factor `1/1 = 1`) the integer step is the
floor-rounded Euler step of the unmitigated right-hand side `SIR_f`. -/
theorem istep_unmitigated (bn bd gn gd N : ℤ) (Nq t : ℕ) (u : ℤ × ℤ × ℤ)
    (hbd : 0 < bd) (hgd : 0 < gd) (hN : 0 < N) :
    istep bn bd gn gd 1 1 N Nq t u =
      (u.1 + ⌊(SIR_f ((bn : ℚ) / (bd : ℚ)) ((gn : ℚ) / (gd : ℚ)) (N : ℚ)
          (t : ℚ) ((u.1 : ℚ), (u.2.1 : ℚ), (u.2.2 : ℚ))).1⌋,
       u.2.1 + ⌊(SIR_f ((bn : ℚ) / (bd : ℚ)) ((gn : ℚ) / (gd : ℚ)) (N : ℚ)
          (t : ℚ) ((u.1 : ℚ), (u.2.1 : ℚ), (u.2.2 : ℚ))).2.1⌋,
       u.2.2 + ⌊(SIR_f ((bn : ℚ) / (bd : ℚ)) ((gn : ℚ) / (gd : ℚ)) (N : ℚ)
          (t : ℚ) ((u.1 : ℚ), (u.2.1 : ℚ), (u.2.2 : ℚ))).2.2⌋) := by
  rw [istep_floor_of_rhs bn bd gn gd 1 1 N Nq t u hbd hgd one_pos hN,
    show (((1 : ℤ) : ℚ) / ((1 : ℤ) : ℚ)) = 1 by norm_num,
    SIR_mitigated_f_factor_one]

/-- The scan composes over day counts. -/
theorem scan_add (bn bd gn gd qn qd N : ℤ) (Nq a b : ℕ) (s : ScanState) :
    scan bn bd gn gd qn qd N Nq (a + b) s =
      scan bn bd gn gd qn qd N Nq b (scan bn bd gn gd qn qd N Nq a s) := by
  induction b with
  | zero => rfl
  | succ b ih =>
    show scanStep bn bd gn gd qn qd N Nq (scan bn bd gn gd qn qd N Nq (a + b) s) =
      scanStep bn bd gn gd qn qd N Nq (scan bn bd gn gd qn qd N Nq b
        (scan bn bd gn gd qn qd N Nq a s))
    rw [ih]

/-- Soundness of the peak-tracking scan started at
`(0, u0, (u0.I, 0))`: after `n` days it holds the day counter `n`, the
`n`-th trajectory state, and a peak record that is attained at its
recorded day (which is at most `n`) and dominates the infected count of
every sampled day `k ≤ n`. -/
theorem scan_spec (bn bd gn gd qn qd N : ℤ) (Nq : ℕ) (u0 : ℤ × ℤ × ℤ) (n : ℕ) :
    (scan bn bd gn gd qn qd N Nq n (0, u0, (u0.2.1, 0))).1 = n ∧
    (scan bn bd gn gd qn qd N Nq n (0, u0, (u0.2.1, 0))).2.1 =
      itraj bn bd gn gd qn qd N Nq u0 n ∧
    (scan bn bd gn gd qn qd N Nq n (0, u0, (u0.2.1, 0))).2.2.2 ≤ n ∧
    (scan bn bd gn gd qn qd N Nq n (0, u0, (u0.2.1, 0))).2.2.1 =
      (itraj bn bd gn gd qn qd N Nq u0
        (scan bn bd gn gd qn qd N Nq n (0, u0, (u0.2.1, 0))).2.2.2).2.1 ∧
    ∀ k ≤ n, (itraj bn bd gn gd qn qd N Nq u0 k).2.1 ≤
      (scan bn bd gn gd qn qd N Nq n (0, u0, (u0.2.1, 0))).2.2.1 := by
  induction n with
  | zero =>
    refine ⟨rfl, rfl, le_refl 0, rfl, ?_⟩
    intro k hk
    rw [Nat.le_zero.mp hk]
    exact le_refl _
  | succ n ih =>
    obtain ⟨iht, ihu, ihd, ihat, ihub⟩ := ih
    have hstep : scan bn bd gn gd qn qd N Nq (n + 1) (0, u0, (u0.2.1, 0)) =
        scanStep bn bd gn gd qn qd N Nq (scan bn bd gn gd qn qd N Nq n (0, u0, (u0.2.1, 0))) :=
      rfl
    set s := scan bn bd gn gd qn qd N Nq n (0, u0, (u0.2.1, 0)) with hs
    have hu' : istep bn bd gn gd qn qd N Nq s.1 s.2.1 =
        itraj bn bd gn gd qn qd N Nq u0 (n + 1) := by
      rw [iht, ihu]
      rfl
    rw [hstep]
    simp only [scanStep]
    rw [hu']
    rcases lt_or_le s.2.2.1 (itraj bn bd gn gd qn qd N Nq u0 (n + 1)).2.1 with hlt | hle
    · rw [if_pos hlt]
      refine ⟨by rw [iht], rfl, by rw [iht], by rw [iht], ?_⟩
      intro k hk
      rcases Nat.le_succ_iff.mp hk with hk' | hk'
      · exact le_of_lt (lt_of_le_of_lt (ihub k hk') hlt)
      · rw [hk']
    · rw [if_neg (not_lt.mpr hle)]
      refine ⟨by rw [iht], rfl, le_trans ihd (Nat.le_succ n), ihat, ?_⟩
      intro k hk
      rcases Nat.le_succ_iff.mp hk with hk' | hk'
      · exact ihub k hk'
      · rw [hk']
        exact hle

/-- `u0int` is the componentwise floor of the state derived by the code
at the reference inputs. -/
theorem u0int_floor_of_derived :
    SIR_u0 (3 / 20) 7770000000 = some (23306014840 / 3, 2321852 / 3, 554436) ∧
    u0int = (⌊(23306014840 / 3 : ℚ)⌋, ⌊(2321852 / 3 : ℚ)⌋, ⌊(554436 : ℚ)⌋) := by
  constructor
  · unfold SIR_u0
    norm_num
  · unfold u0int
    norm_num [Prod.ext_iff]

/-- Unmitigated scenario (`beta = 1/4`, `gamma = 1/20`, `N = 7.77e9`),
days 0 to 100. -/
theorem scanU_a :
    scan 1 4 1 20 1 1 7770000000 0 100 (0, u0int, (u0int.2.1, 0)) =
      (100, (69876490, 695058241, 7005065112), (3822405018, 58)) := by
  set_option maxRecDepth 16000 in decide

/-- Unmitigated scenario, days 100 to 200. -/
theorem scanU_b :
    scan 1 4 1 20 1 1 7770000000 0 100
        (100, (69876490, 695058241, 7005065112), (3822405018, 58)) =
      (200, (43956743, 4850120, 7721192837), (3822405018, 58)) := by
  set_option maxRecDepth 16000 in decide

/-- Unmitigated scenario, days 200 to 300. -/
theorem scanU_c :
    scan 1 4 1 20 1 1 7770000000 0 100
        (200, (43956743, 4850120, 7721192837), (3822405018, 58)) =
      (300, (43816698, 33300, 7726149552), (3822405018, 58)) := by
  set_option maxRecDepth 16000 in decide

/-- Unmitigated scenario, days 300 to 399 (the last sampled day of
`times = np.arange(0, 400)`). -/
theorem scanU_d :
    scan 1 4 1 20 1 1 7770000000 0 99
        (300, (43816698, 33300, 7726149552), (3822405018, 58)) =
      (399, (43815689, 229, 7726183481), (3822405018, 58)) := by
  set_option maxRecDepth 16000 in decide

/-- Unmitigated scenario over the full sampled horizon: the infected
trajectory peaks at 3822405018 (≈ 3.8e9) on day 58. -/
theorem runScan_unmitigated :
    runScan 1 4 1 20 1 1 7770000000 0 399 u0int =
      (399, (43815689, 229, 7726183481), (3822405018, 58)) := by
  show scan 1 4 1 20 1 1 7770000000 0 399 (0, u0int, (u0int.2.1, 0)) = _
  rw [show (399 : ℕ) = 300 + 99 from rfl, scan_add,
    show (300 : ℕ) = 200 + 100 from rfl, scan_add,
    show (200 : ℕ) = 100 + 100 from rfl, scan_add,
    scanU_a, scanU_b, scanU_c, scanU_d]

/-- Mitigated scenario (`q = 1/2`, `Nq = 180`), days 0 to 100. -/
theorem scanM_a :
    scan 1 4 1 20 1 2 7770000000 180 100 (0, u0int, (u0int.2.1, 0)) =
      (100, (6378553621, 780103766, 611342460), (780103766, 100)) := by
  set_option maxRecDepth 16000 in decide

/-- Mitigated scenario, days 100 to 200. -/
theorem scanM_b :
    scan 1 4 1 20 1 2 7770000000 180 100
        (100, (6378553621, 780103766, 611342460), (780103766, 100)) =
      (200, (766810550, 430647043, 6572542109), (1843331836, 132)) := by
  set_option maxRecDepth 16000 in decide

/-- Mitigated scenario, days 200 to 300. -/
theorem scanM_c :
    scan 1 4 1 20 1 2 7770000000 180 100
        (200, (766810550, 430647043, 6572542109), (1843331836, 132)) =
      (300, (491142331, 16650363, 7262206864), (1843331836, 132)) := by
  set_option maxRecDepth 16000 in decide

/-- Mitigated scenario, days 300 to 399. -/
theorem scanM_d :
    scan 1 4 1 20 1 2 7770000000 180 99
        (300, (491142331, 16650363, 7262206864), (1843331836, 132)) =
      (399, (483769583, 521854, 7285707980), (1843331836, 132)) := by
  set_option maxRecDepth 16000 in decide

/-- Mitigated scenario over the full sampled horizon: the infected
trajectory peaks at 1843331836 (≈ 1.8e9) on day 132. -/
theorem runScan_mitigated :
    runScan 1 4 1 20 1 2 7770000000 180 399 u0int =
      (399, (483769583, 521854, 7285707980), (1843331836, 132)) := by
  show scan 1 4 1 20 1 2 7770000000 180 399 (0, u0int, (u0int.2.1, 0)) = _
  rw [show (399 : ℕ) = 300 + 99 from rfl, scan_add,
    show (300 : ℕ) = 200 + 100 from rfl, scan_add,
    show (200 : ℕ) = 100 + 100 from rfl, scan_add,
    scanM_a, scanM_b, scanM_c, scanM_d]

/-- Claim C9: with `beta = 1/4`, `gamma = 1/20` and the reference initial
state, the trajectory with mitigation factor `1/2` for 180 days over the
400-day sampled horizon has a strictly smaller infected peak
(1843331836 < 3822405018) occurring at a strictly later day
(132 > 58) than the unmitigated trajectory with the same parameters. -/
theorem mitigation_reduces_and_delays_peak :
    peakI (runScan 1 4 1 20 1 2 7770000000 180 399 u0int) <
      peakI (runScan 1 4 1 20 1 1 7770000000 0 399 u0int) ∧
    peakDay (runScan 1 4 1 20 1 1 7770000000 0 399 u0int) <
      peakDay (runScan 1 4 1 20 1 2 7770000000 180 399 u0int) := by
  unfold peakI peakDay
  rw [runScan_unmitigated, runScan_mitigated]
  exact ⟨by norm_num, by norm_num⟩
